import Mathlib

set_option maxRecDepth 4000

/-!
# Verification of the medical-assistant-chatbot backend (src/backend/main.py)

Shallow embedding of the backend's data model and operations:
user registration, JWT-style token issue/verify, the per-user session
store (append / history / list / delete), the `send_message`
orchestrator with its context window and rollback-on-failure, and the
bearer-token auth gate.

Python dicts are modelled as association lists preserving insertion
order (`assocFind` / `assocSet` / `assocErase`); Python `list` is
`List`; timestamps and the current time are explicit parameters.
-/

namespace ChatBot

deriving instance DecidableEq for Except

/-- An HTTP error as raised by `HTTPException(status_code=..., detail=...)`. -/
structure HTTPError where
  status : Nat
  detail : String
deriving DecidableEq, Repr

/-- A chat message record `{role, content, timestamp}` (main.py, e.g. lines 276-280). -/
structure Message where
  role : String
  content : String
  timestamp : String
deriving DecidableEq, Repr

/-- A stored user record (main.py lines 245-249). -/
structure UserRecord where
  username : String
  password_hash : String
  created_at : String
deriving DecidableEq, Repr

/-! ## Association lists modelling Python dicts

Python dicts have unique keys and preserve insertion order; updating an
existing key keeps its position, a fresh key is appended at the end,
`del` removes the key's entry. -/

/-- Dict lookup: first entry with the given key. -/
def assocFind (k : String) : List (String × α) → Option α
  | [] => none
  | (k', v) :: rest => if k' = k then some v else assocFind k rest

/-- Dict assignment `d[k] = v`: replace in place, or append a fresh key. -/
def assocSet (k : String) (v : α) : List (String × α) → List (String × α)
  | [] => [(k, v)]
  | (k', v') :: rest => if k' = k then (k, v) :: rest else (k', v') :: assocSet k v rest

/-- Dict deletion `del d[k]`: drop every entry with the key (dict keys are unique). -/
def assocErase (k : String) (l : List (String × α)) : List (String × α) :=
  l.filter (fun p => p.1 ≠ k)

@[simp]
theorem assocFind_assocSet_self (k : String) (v : α) (l : List (String × α)) :
    assocFind k (assocSet k v l) = some v := by
  induction l with
  | nil => simp [assocFind, assocSet]
  | cons hd tl ih =>
    obtain ⟨k', v'⟩ := hd
    by_cases h : k' = k <;> simp [assocFind, assocSet, h, ih]

theorem assocFind_assocSet_ne (k k' : String) (hne : k ≠ k') (v : α)
    (l : List (String × α)) :
    assocFind k' (assocSet k v l) = assocFind k' l := by
  induction l with
  | nil => simp [assocFind, assocSet, hne]
  | cons hd tl ih =>
    obtain ⟨k₀, v₀⟩ := hd
    by_cases h : k₀ = k
    · subst h
      simp [assocFind, assocSet, hne]
    · simp only [assocSet, if_neg h]
      by_cases h' : k₀ = k'
      · simp [assocFind, h']
      · simp [assocFind, h', ih]

@[simp]
theorem assocFind_assocErase_self (k : String) (l : List (String × α)) :
    assocFind k (assocErase k l) = none := by
  induction l with
  | nil => simp [assocFind, assocErase]
  | cons hd tl ih =>
    obtain ⟨k', v'⟩ := hd
    by_cases h : k' = k <;>
      simp_all [assocFind, assocErase, List.filter_cons, h]

theorem assocFind_assocErase_ne (k k' : String) (hne : k' ≠ k) (l : List (String × α)) :
    assocFind k' (assocErase k l) = assocFind k' l := by
  induction l with
  | nil => simp [assocFind, assocErase]
  | cons hd tl ih =>
    obtain ⟨k₀, v₀⟩ := hd
    by_cases h : k₀ = k
    · subst h
      have : ¬ (k₀ = k') := fun hc => hne hc.symm
      simp_all [assocFind, assocErase, List.filter_cons]
    · by_cases h' : k₀ = k' <;>
        simp_all [assocFind, assocErase, List.filter_cons]

/-! ## Configuration (main.py lines 43-46) -/

/-- `ACCESS_TOKEN_EXPIRE_MINUTES = int(os.getenv(..., "720"))`: the env value or 720. -/
def ACCESS_TOKEN_EXPIRE_MINUTES (envValue : Option Nat) : Nat :=
  envValue.getD 720

/-! ## Registration (main.py lines 238-252) -/

/-- Python `str.strip()` on the underlying character list: drop whitespace
from both ends. -/
def stripList (l : List Char) : List Char :=
  ((l.dropWhile Char.isWhitespace).reverse.dropWhile Char.isWhitespace).reverse

/-- `user.username.strip().lower()` (main.py line 240), computed on the
underlying character list (faithful for the ASCII range). -/
def normalize (s : String) : String :=
  ⟨(stripList s.data).map Char.toLower⟩

/-- Modelled from the spec: `hash_password` (main.py line 96-97) calls the
external `hashlib.sha256` on `f"{PASSWORD_SALT}:{password}"`; the spec only
requires a deterministic one-way salted hash, so the digest computation is
modelled as an abstract injective tagging of the salted input. -/
def hash_password (salt password : String) : String :=
  "sha256(" ++ salt ++ ":" ++ password ++ ")"

/-- The user table: normalized username → record (main.py line 82). -/
abbrev Users := List (String × UserRecord)

/-- Result of `POST /auth/register`: the HTTP outcome plus the user table
after the call and whether `save_json_file(USERS_FILE, ...)` ran. -/
structure RegisterOutcome where
  result : Except HTTPError String
  users : Users
  persisted : Bool
deriving Repr

/-- `register` (main.py lines 238-252): normalize the username, reject empty
fields, reject duplicates, otherwise store the salted hash and persist.
On success the result carries the normalized username (the token subject). -/
def register (salt : String) (us : Users) (username password now : String) :
    RegisterOutcome :=
  let u := normalize username
  if u = "" ∨ password = "" then
    { result := .error ⟨400, "Username and password are required"⟩
      users := us, persisted := false }
  else if (assocFind u us).isSome then
    { result := .error ⟨400, "Username already exists"⟩
      users := us, persisted := false }
  else
    { result := .ok u
      users := assocSet u ⟨u, hash_password salt password, now⟩ us
      persisted := true }

/-! ## Token service (main.py lines 102-115)

`create_access_token` builds `{"sub": username, "exp": now + TTL}` and signs
it with `JWT_SECRET` (HS256 via the external PyJWT library). Modelled from
the spec: the HMAC signature and base64 wire format of PyJWT are modelled
abstractly — a token is its decoded payload plus a signature value, `sign`
stands for the HMAC over the payload bytes, and `jwt.decode` verifies the
signature first, then rejects an undecodable (malformed) payload, then
checks `exp` against the current time (expired when now ≥ exp), per the
spec's §4.2 and the JWT standard. Times are seconds since the epoch. -/

/-- The decoded payload of a token: either a claims object
`{"sub": ..., "exp": ...}` (`sub` missing is `none`) or bytes that do not
decode to a claims object at all. -/
inductive Payload where
  | claims (sub : Option String) (exp : Nat)
  | garbage (bytes : String)
deriving DecidableEq, Repr

/-- Modelled from the spec: the serialized bytes of a payload that the
signature covers (stands for the base64url claims segment; only equality
matters). -/
def payloadBytes : Payload → String
  | .claims none exp => "claims|-|" ++ toString exp
  | .claims (some s) exp => "claims|" ++ s ++ "|" ++ toString exp
  | .garbage b => "garbage|" ++ b

/-- Modelled from the spec: the signature the signing key produces over a
payload (stands for HMAC-SHA256; only equality of signatures matters). -/
def sign (secret : String) (p : Payload) : String :=
  "hmac(" ++ secret ++ "|" ++ payloadBytes p ++ ")"

/-- A token: payload plus signature. -/
structure Token where
  payload : Payload
  sig : String
deriving DecidableEq, Repr

/-- Failures of token verification, as mapped to HTTP in
`decode_access_token` (main.py lines 108-115). -/
inductive TokenError where
  | expired
  | invalid
deriving DecidableEq, Repr

/-- `create_access_token` (main.py lines 102-106): subject plus absolute
expiry `now + TTL minutes`, signed with the secret. -/
def create_access_token (secret : String) (ttlMinutes : Nat) (now : Nat)
    (username : String) : Token :=
  { payload := .claims (some username) (now + ttlMinutes * 60)
    sig := sign secret (.claims (some username) (now + ttlMinutes * 60)) }

/-- Modelled from the spec: `jwt.decode` — signature check, then payload
decoding, then the `exp` claim (expired iff now ≥ exp). Returns the `sub`
claim as `decode_access_token` does (`payload.get("sub")`). -/
def jwt_decode (secret : String) (now : Nat) (t : Token) :
    Except TokenError (Option String) :=
  if t.sig ≠ sign secret t.payload then .error .invalid
  else
    match t.payload with
    | .garbage _ => .error .invalid
    | .claims sub exp =>
      if now ≥ exp then .error .expired
      else .ok sub

/-- `decode_access_token` (main.py lines 108-115) followed by the
`if not username` check of `get_current_username` (line 122-123): a missing
or empty subject is rejected as an invalid-payload failure. -/
def verify_token (secret : String) (now : Nat) (t : Token) :
    Except TokenError String :=
  match jwt_decode secret now t with
  | .error e => .error e
  | .ok none => .error .invalid
  | .ok (some u) => if u = "" then .error .invalid else .ok u

/-! ## Session store (main.py lines 82-140) -/

/-- One user's sessions: session_id → ordered message log. -/
abbrev Sessions := List (String × List Message)

/-- The whole store `chat_history`: username → sessions (main.py line 85). -/
abbrev ChatHistory := List (String × Sessions)

/-- `get_user_sessions` (main.py lines 132-133): `chat_history.setdefault(username, {})`
observed as a read — the user's session dict, or empty if absent. -/
def get_user_sessions (username : String) (ch : ChatHistory) : Sessions :=
  (assocFind username ch).getD []

/-- `get_session_messages` (main.py lines 135-137) observed as a read:
the session's message list, or empty if absent. -/
def get_session_messages (username session_id : String) (ch : ChatHistory) :
    List Message :=
  (assocFind session_id (get_user_sessions username ch)).getD []

/-- Write one session's message list back into the store (the effect of
mutating the list obtained via the `setdefault` chain). -/
def setSession (username session_id : String) (msgs : List Message)
    (ch : ChatHistory) : ChatHistory :=
  assocSet username (assocSet session_id msgs (get_user_sessions username ch)) ch

/-! ## `GET /history/{session_id}` (main.py lines 315-318) -/

/-- `get_chat_history`: `sessions.get(session_id, [])` — the session's
messages, empty list (not an error) when absent. -/
def get_chat_history (username session_id : String) (ch : ChatHistory) :
    List Message :=
  (assocFind session_id (get_user_sessions username ch)).getD []

/-! ## `GET /sessions` (main.py lines 320-331) -/

/-- One entry of the `/sessions` listing (main.py lines 325-330). -/
structure SessionSummary where
  session_id : String
  message_count : Nat
  last_message : Option String
  last_message_content : Option String
deriving DecidableEq, Repr

/-- The `/sessions` response body. -/
structure SessionsResponse where
  total_sessions : Nat
  sessions : List SessionSummary
deriving DecidableEq, Repr

/-- The summary built for one session (main.py lines 325-330). Note
line 329 parses as `(messages[-1]["content"][:100] + "...") if messages
else None`: the `"..."` marker is appended unconditionally. -/
def summarize (session_id : String) (messages : List Message) : SessionSummary :=
  { session_id := session_id
    message_count := messages.length
    last_message := messages.getLast?.map (·.timestamp)
    last_message_content := messages.getLast?.map (fun m => m.content.take 100 ++ "...") }

/-- `list_sessions` (main.py lines 320-331): one summary per stored session,
in insertion order. -/
def list_sessions (username : String) (ch : ChatHistory) : SessionsResponse :=
  let out := (get_user_sessions username ch).map (fun p => summarize p.1 p.2)
  { total_sessions := out.length, sessions := out }

/-! ## `DELETE /sessions/{session_id}` (main.py lines 333-340) -/

/-- Outcome of `clear_session`: HTTP result, store after the call, and
whether `save_chat()` ran. -/
structure ClearOutcome where
  result : Except HTTPError String
  store : ChatHistory
  persisted : Bool
deriving Repr

/-- `clear_session` (main.py lines 333-340): delete the session and persist,
or 404 when it is absent. -/
def clear_session (username session_id : String) (ch : ChatHistory) : ClearOutcome :=
  let sessions := get_user_sessions username ch
  if (assocFind session_id sessions).isSome then
    { result := .ok ("Session " ++ session_id ++ " cleared successfully")
      store := assocSet username (assocErase session_id sessions) ch
      persisted := true }
  else
    { result := .error ⟨404, "Session not found"⟩
      store := ch, persisted := false }

/-! ## `POST /send` (main.py lines 266-313) -/

/-- The outcome of the provider call `model.ainvoke(...)` (external
capability): a reply, or a failure whose text feeds the error detail. -/
inductive ProviderResult where
  | success (reply : String)
  | failure (err : String)
deriving DecidableEq, Repr

/-- A provider-side message (`HumanMessage` / `AIMessage`). -/
inductive ProviderMessage where
  | human (content : String)
  | ai (content : String)
deriving DecidableEq, Repr

/-- Role mapping of main.py lines 286-290: `user` → human, `assistant` → ai,
anything else dropped. -/
def toProviderMessage (m : Message) : Option ProviderMessage :=
  if m.role = "user" then some (.human m.content)
  else if m.role = "assistant" then some (.ai m.content)
  else none

/-- `medical_prompt.format(user_message=...)` (main.py lines 187-208):
the fixed template with the user's text substituted. -/
def medical_prompt_format (user_message : String) : String :=
  "\nYou are a helpful medical assistant chatbot. Your role is to provide general health information and guidance.\n\nIMPORTANT DISCLAIMERS:\n- You are NOT a doctor and cannot provide medical diagnosis\n- Always recommend consulting healthcare professionals for serious concerns\n- Provide general information only, not specific medical advice\n- If someone has urgent symptoms, direct them to seek immediate medical attention\n\nRESPONSE FORMAT:\n- Use clear, simple language\n- Emphasize important safety information\n- Do NOT use markdown formatting like ** or *\n- Use plain text with clear structure\n- Highlight critical warnings and safety notes\n\nUser Question: "
    ++ user_message
    ++ "\n\nPlease provide a helpful, informative response while keeping the above disclaimers in mind. Focus on general information and safety.\n"

/-- The last `n` elements of a list (Python `l[-n:]`, the whole list when
it is shorter than `n`). -/
def lastN (n : Nat) (l : List α) : List α :=
  l.drop (l.length - n)

/-- `context_messages = messages[-5:] if len(messages) > 1 else []`
(main.py line 284), applied to the log after the user-message append. -/
def build_context (messages : List Message) : List Message :=
  if messages.length > 1 then lastN 5 messages else []

/-- The `except` branch of `send_message` (main.py lines 308-313): pop the
session's last message, but only when the session exists and is non-empty. -/
def rollback_last (username session_id : String) (ch : ChatHistory) : ChatHistory :=
  match assocFind session_id (get_user_sessions username ch) with
  | some msgs =>
    if msgs.isEmpty then ch
    else setSession username session_id msgs.dropLast ch
  | none => ch

/-- Outcome of `POST /send`: the HTTP result (reply and returned history on
success), the store after the call, whether `save_chat()` ran, and — as
observations for the context-window property — the `context_messages` slice
and the exact provider input (`none` when the provider was never invoked). -/
structure SendOutcome where
  result : Except HTTPError (String × List Message)
  store : ChatHistory
  persisted : Bool
  context : List Message
  providerInput : Option (List ProviderMessage)
deriving Repr

/-- `send_message` (main.py lines 266-313): reject when the model is
unavailable; append the user message in memory; build the 5-entry context
window; call the provider with context plus the templated prompt; on
success append the reply and persist; on failure roll back the user
message and raise a 500 carrying the failure detail. -/
def send_message (modelAvailable : Bool) (ch : ChatHistory)
    (current_user session_id text tsUser tsAI : String)
    (provider : ProviderResult) : SendOutcome :=
  if !modelAvailable then
    { result := .error ⟨500, "AI service not available"⟩
      store := ch, persisted := false, context := [], providerInput := none }
  else
    let msgs := get_session_messages current_user session_id ch
    let userMsg : Message := ⟨"user", text, tsUser⟩
    let msgs1 := msgs ++ [userMsg]
    let ch1 := setSession current_user session_id msgs1 ch
    let contextMessages := build_context msgs1
    let input := contextMessages.filterMap toProviderMessage
      ++ [ProviderMessage.human (medical_prompt_format text)]
    match provider with
    | .success reply =>
      let aiMsg : Message := ⟨"assistant", reply, tsAI⟩
      let msgs2 := msgs1 ++ [aiMsg]
      { result := .ok (reply, msgs2)
        store := setSession current_user session_id msgs2 ch1
        persisted := true, context := contextMessages, providerInput := some input }
    | .failure err =>
      { result := .error ⟨500, "Error processing message: " ++ err⟩
        store := rollback_last current_user session_id ch1
        persisted := false, context := contextMessages, providerInput := some input }

/-! ## Auth gate `get_current_username` (main.py lines 117-126) -/

/-- Outcome of the auth gate: the resolved username or a 401, plus whether
token decoding was ever attempted. -/
structure AuthOutcome where
  result : Except HTTPError String
  decodeAttempted : Bool
deriving Repr

/-- `authorization.lower().startswith("bearer ")` (main.py line 118),
computed on the underlying character list (faithful for the ASCII range). -/
def bearerScheme (a : String) : Bool :=
  "bearer ".data.isPrefixOf (a.data.map Char.toLower)

/-- Python `authorization.split(" ", 1)[1]`: everything after the first
space. -/
def afterFirstSpace (s : String) : String :=
  match s.splitOn " " with
  | [] => ""
  | _ :: rest => String.intercalate " " rest

/-- `get_current_username` (main.py lines 117-126), parameterized over the
token-decoding function (serialized token → `TokenError` or optional `sub`
claim): reject a missing header or a scheme other than case-insensitive
`bearer ` without decoding; otherwise decode the token, reject a missing or
empty subject and unknown users, and return the username. -/
def get_current_username (decodeTok : String → Except TokenError (Option String))
    (users : Users) (authorization : Option String) : AuthOutcome :=
  match authorization with
  | none => ⟨.error ⟨401, "Missing or invalid Authorization header"⟩, false⟩
  | some a =>
    if bearerScheme a then
      match decodeTok (afterFirstSpace a) with
      | .error .expired => ⟨.error ⟨401, "Token expired"⟩, true⟩
      | .error .invalid => ⟨.error ⟨401, "Invalid token"⟩, true⟩
      | .ok none => ⟨.error ⟨401, "Invalid token payload"⟩, true⟩
      | .ok (some u) =>
        if u = "" then ⟨.error ⟨401, "Invalid token payload"⟩, true⟩
        else if (assocFind u users).isSome then ⟨.ok u, true⟩
        else ⟨.error ⟨401, "User not found"⟩, true⟩
    else ⟨.error ⟨401, "Missing or invalid Authorization header"⟩, false⟩

/-! ## Store-level appends, for the isolation property -/

/-- Appending one message to a session, the store-level effect of the
append steps inside `send_message`. -/
def append_message (username session_id : String) (m : Message)
    (ch : ChatHistory) : ChatHistory :=
  setSession username session_id
    (get_session_messages username session_id ch ++ [m]) ch

/-- A sequence of appends performed under one user's identity. -/
def apply_appends (username : String) (ops : List (String × Message))
    (ch : ChatHistory) : ChatHistory :=
  ops.foldl (fun acc op => append_message username op.1 op.2 acc) ch

/-! ## Store lemmas -/

theorem get_user_sessions_setSession_self (u sid : String) (msgs : List Message)
    (ch : ChatHistory) :
    get_user_sessions u (setSession u sid msgs ch) =
      assocSet sid msgs (get_user_sessions u ch) := by
  simp [get_user_sessions, setSession, assocFind_assocSet_self]

theorem get_session_messages_setSession_self (u sid : String) (msgs : List Message)
    (ch : ChatHistory) :
    get_session_messages u sid (setSession u sid msgs ch) = msgs := by
  simp [get_session_messages, get_user_sessions_setSession_self, assocFind_assocSet_self]

theorem rollback_last_after_append (u sid : String) (msgs : List Message)
    (m : Message) (ch : ChatHistory) :
    get_session_messages u sid
      (rollback_last u sid (setSession u sid (msgs ++ [m]) ch)) = msgs := by
  unfold rollback_last
  rw [get_user_sessions_setSession_self, assocFind_assocSet_self]
  simp [get_session_messages_setSession_self]

/-- C1. If the provider call made during `send(username, session_id, text)`
fails, the call returns a 500 `MessageProcessingError` carrying the failure
detail, the session's message list after the call equals the list it had
before the call (the just-appended user message is removed again), and no
persist of the store occurs for the attempt. -/
theorem send_failure_rolls_back (ch : ChatHistory) (u sid text ts1 ts2 err : String) :
    (send_message true ch u sid text ts1 ts2 (.failure err)).result =
      .error ⟨500, "Error processing message: " ++ err⟩ ∧
    get_session_messages u sid
        (send_message true ch u sid text ts1 ts2 (.failure err)).store =
      get_session_messages u sid ch ∧
    (send_message true ch u sid text ts1 ts2 (.failure err)).persisted = false := by
  refine ⟨rfl, ?_, rfl⟩
  show get_session_messages u sid
      (rollback_last u sid (setSession u sid
        (get_session_messages u sid ch ++ [⟨"user", text, ts1⟩]) ch)) =
    get_session_messages u sid ch
  exact rollback_last_after_append u sid _ _ ch

/-- C10. The rollback in the failure branch of `send` removes exactly one
message — the last element of the session's list, whatever its role — and
performs no removal at all when the session's list is empty or the session
is absent, so the rollback never fails on an empty log. -/
theorem rollback_last_removes_exactly_last (ch : ChatHistory) (u sid : String) :
    (∀ msgs : List Message, assocFind sid (get_user_sessions u ch) = some msgs →
      ∀ h : msgs ≠ [],
        get_session_messages u sid (rollback_last u sid ch) = msgs.dropLast ∧
        msgs.dropLast ++ [msgs.getLast h] = msgs) ∧
    (∀ msgs : List Message, assocFind sid (get_user_sessions u ch) = some msgs →
      msgs = [] → rollback_last u sid ch = ch) ∧
    (assocFind sid (get_user_sessions u ch) = none → rollback_last u sid ch = ch) := by
  refine ⟨?_, ?_, ?_⟩
  · intro msgs hfind h
    constructor
    · unfold rollback_last
      rw [hfind]
      simp [h, get_session_messages_setSession_self]
    · exact List.dropLast_append_getLast h
  · intro msgs hfind hempty
    subst hempty
    unfold rollback_last
    rw [hfind]
    simp
  · intro hfind
    unfold rollback_last
    rw [hfind]

/-- Witness for C10 at concrete stores: a two-message session loses exactly
its last message, an empty session and an absent session are untouched. -/
theorem rollback_last_removes_exactly_last_witness :
    (get_session_messages "u" "s"
        (rollback_last "u" "s"
          [("u", [("s", [⟨"user", "a", "t1"⟩, ⟨"assistant", "b", "t2"⟩])])]) =
      [⟨"user", "a", "t1"⟩] ∧
      [Message.mk "user" "a" "t1"].append [Message.mk "assistant" "b" "t2"] =
        [⟨"user", "a", "t1"⟩, ⟨"assistant", "b", "t2"⟩]) ∧
    rollback_last "u" "s" [("u", [("s", ([] : List Message))])] =
      [("u", [("s", ([] : List Message))])] ∧
    rollback_last "u" "s" [] = [] := by
  refine ⟨?_, ?_, ?_⟩
  · have := (rollback_last_removes_exactly_last
      [("u", [("s", [⟨"user", "a", "t1"⟩, ⟨"assistant", "b", "t2"⟩])])] "u" "s").1
      [⟨"user", "a", "t1"⟩, ⟨"assistant", "b", "t2"⟩] (by rfl) (by simp)
    exact ⟨this.1.trans (by rfl), this.2⟩
  · exact (rollback_last_removes_exactly_last
      [("u", [("s", ([] : List Message))])] "u" "s").2.1 [] (by rfl) rfl
  · exact (rollback_last_removes_exactly_last [] "u" "s").2.2 (by rfl)

/-- C2. Writing `L` for the length of the session's log after the append of
the new user message in `send`: the context handed to the provider is
exactly the last `min L 5` entries of that log (which include the appended
user message) when `L > 1`, and is empty when `L = 1` — when the new
message is the session's first message, no context is replayed. -/
theorem send_context_window (ch : ChatHistory) (u sid text ts1 ts2 : String)
    (provider : ProviderResult) :
    ((get_session_messages u sid ch ++ [Message.mk "user" text ts1]).length > 1 →
      (send_message true ch u sid text ts1 ts2 provider).context =
        lastN (min (get_session_messages u sid ch ++ [Message.mk "user" text ts1]).length 5)
          (get_session_messages u sid ch ++ [Message.mk "user" text ts1]) ∧
      (send_message true ch u sid text ts1 ts2 provider).context.length =
        min (get_session_messages u sid ch ++ [Message.mk "user" text ts1]).length 5) ∧
    ((get_session_messages u sid ch ++ [Message.mk "user" text ts1]).length = 1 →
      (send_message true ch u sid text ts1 ts2 provider).context = []) := by
  have hctx : (send_message true ch u sid text ts1 ts2 provider).context =
      build_context (get_session_messages u sid ch ++ [Message.mk "user" text ts1]) := by
    cases provider <;> rfl
  constructor
  · intro hL
    have h5 : lastN 5 (get_session_messages u sid ch ++ [Message.mk "user" text ts1]) =
        lastN (min (get_session_messages u sid ch ++ [Message.mk "user" text ts1]).length 5)
          (get_session_messages u sid ch ++ [Message.mk "user" text ts1]) := by
      unfold lastN
      congr 1
      omega
    refine ⟨?_, ?_⟩
    · rw [hctx, build_context, if_pos hL, h5]
    · rw [hctx, build_context, if_pos hL]
      unfold lastN
      rw [List.length_drop]
      omega
  · intro hL
    rw [hctx, build_context, hL]
    simp

/-- Witness for C2: with one prior turn the context is both appended-log
entries; with no prior turns the context is empty. -/
theorem send_context_window_witness :
    (send_message true [("u", [("s", [⟨"assistant", "b", "t0"⟩])])]
        "u" "s" "q" "t1" "t2" (.success "r")).context =
      [⟨"assistant", "b", "t0"⟩, ⟨"user", "q", "t1"⟩] ∧
    (send_message true [] "u" "s" "q" "t1" "t2" (.success "r")).context = [] := by
  constructor
  · have := (send_context_window [("u", [("s", [⟨"assistant", "b", "t0"⟩])])]
      "u" "s" "q" "t1" "t2" (.success "r")).1 (by decide)
    exact this.1.trans (by rfl)
  · exact (send_context_window [] "u" "s" "q" "t1" "t2" (.success "r")).2 (by rfl)

/-- The preview that the specification's sentence describes: the first 100
characters of the content, with the `"..."` marker appended when and only
when the content is longer than 100 characters. Stated for comparison with
`summarize`, which is the code's behavior. -/
def specPreview (content : String) : String :=
  if content.length > 100 then content.take 100 ++ "..." else content

/-- Counterexample for C3. A session whose last message is the 2-character
string `"hi"` gets the preview `"hi..."` from the code, while the claim —
marker appended only when the content exceeds 100 characters — prescribes
`"hi"`. -/
theorem list_sessions_preview_counterexample :
    ((list_sessions "u" [("u", [("s", [⟨"user", "hi", "t"⟩])])]).sessions.map
        (fun e => e.last_message_content)) = [some "hi..."] ∧
    specPreview "hi" = "hi" ∧ ("hi..." : String) ≠ "hi" := by
  refine ⟨rfl, rfl, by decide⟩

/-- C3 amended. For every user and every stored session, `listSessions`
reports, for a non-empty session, a preview equal to the first 100
characters of the last message's content with the `"..."` marker appended
unconditionally (whether or not the content exceeds 100 characters), and a
`null` preview for a session with no messages. -/
theorem list_sessions_preview (u : String) (ch : ChatHistory) (sid : String)
    (msgs : List Message) (hmem : (sid, msgs) ∈ get_user_sessions u ch) :
    summarize sid msgs ∈ (list_sessions u ch).sessions ∧
    (msgs = [] → (summarize sid msgs).last_message_content = none) ∧
    ∀ h : msgs ≠ [],
      (summarize sid msgs).last_message_content =
        some ((msgs.getLast h).content.take 100 ++ "...") := by
  refine ⟨?_, ?_, ?_⟩
  · simp only [list_sessions, List.mem_map]
    exact ⟨(sid, msgs), hmem, rfl⟩
  · intro h
    subst h
    rfl
  · intro h
    simp [summarize, List.getLast?_eq_getLast msgs h]

/-- Witness for C3's amended statement at a concrete store holding one
short-content session and one empty session. -/
theorem list_sessions_preview_witness :
    (summarize "s" [⟨"user", "hi", "t"⟩] ∈
        (list_sessions "u"
          [("u", [("s", [⟨"user", "hi", "t"⟩]), ("e", [])])]).sessions ∧
      (summarize "s" [⟨"user", "hi", "t"⟩]).last_message_content =
        some (("hi" : String).take 100 ++ "...")) ∧
    (summarize "e" ([] : List Message)).last_message_content = none := by
  constructor
  · constructor
    · exact (list_sessions_preview "u"
        [("u", [("s", [⟨"user", "hi", "t"⟩]), ("e", [])])] "s"
        [⟨"user", "hi", "t"⟩] (by simp [get_user_sessions, assocFind])).1
    · exact (list_sessions_preview "u"
        [("u", [("s", [⟨"user", "hi", "t"⟩]), ("e", [])])] "s"
        [⟨"user", "hi", "t"⟩] (by simp [get_user_sessions, assocFind])).2.2
        (by simp)
  · exact (list_sessions_preview "u"
      [("u", [("s", [⟨"user", "hi", "t"⟩]), ("e", [])])] "e"
      [] (by simp [get_user_sessions, assocFind])).2.1 rfl

/-- Counterexample for C4. After registering `alice`, a registration attempt
with the case variant `Alice` and an **empty password** fails with the
`InvalidInput` detail `"Username and password are required"` (the empty-field
check runs before the duplicate check), not with `DuplicateUser`'s
`"Username already exists"` — so the second attempt does not *always* fail
with `DuplicateUser`. -/
theorem register_case_variant_counterexample :
    (register "salt" [] "alice" "pw" "t0").result = .ok "alice" ∧
    normalize "Alice" = normalize "alice" ∧
    (register "salt" (register "salt" [] "alice" "pw" "t0").users "Alice" "" "t1").result =
      .error ⟨400, "Username and password are required"⟩ ∧
    (⟨400, "Username and password are required"⟩ : HTTPError) ≠
      ⟨400, "Username already exists"⟩ := by
  refine ⟨by decide, by decide, by decide, by decide⟩

/-- C4 amended. After a successful registration of `u`, a subsequent
registration attempt with any `v` normalizing like `u` (in particular any
case variant of `u`) fails with `DuplicateUser` (HTTP 400,
`"Username already exists"`) whenever the attempt's password is non-empty;
with an empty password it fails earlier with `InvalidInput` (also HTTP
400). In both cases the stored user table is unchanged and nothing is
persisted by the failed attempt. -/
theorem register_case_variant_rejected (salt : String) (us : Users)
    (u p now v p2 now2 w : String)
    (hok : (register salt us u p now).result = .ok w)
    (hv : normalize v = normalize u) :
    (p2 ≠ "" → (register salt (register salt us u p now).users v p2 now2).result =
      .error ⟨400, "Username already exists"⟩) ∧
    (p2 = "" → (register salt (register salt us u p now).users v p2 now2).result =
      .error ⟨400, "Username and password are required"⟩) ∧
    (register salt (register salt us u p now).users v p2 now2).users =
      (register salt us u p now).users ∧
    (register salt (register salt us u p now).users v p2 now2).persisted = false := by
  by_cases h1 : normalize u = "" ∨ p = ""
  · rw [register, if_pos h1] at hok
    exact absurd hok (by simp)
  · by_cases h2 : (assocFind (normalize u) us).isSome
    · rw [register, if_neg h1, if_pos h2] at hok
      exact absurd hok (by simp)
    · have husers : (register salt us u p now).users =
          assocSet (normalize u) ⟨normalize u, hash_password salt p, now⟩ us := by
        rw [register, if_neg h1, if_neg h2]
      push_neg at h1
      have hvne : ¬ (normalize v = "" ∨ p2 = "") ∨ p2 = "" := by
        by_cases hp2 : p2 = ""
        · exact Or.inr hp2
        · exact Or.inl (by rw [hv]; tauto)
      have hfound : (assocFind (normalize v) (register salt us u p now).users).isSome := by
        rw [husers, hv, assocFind_assocSet_self]
        rfl
      rcases hvne with hvne | hp2
      · refine ⟨fun _ => ?_, fun hp2 => absurd (Or.inr hp2) hvne, ?_, ?_⟩
        · rw [register, if_neg hvne, if_pos hfound]
        · rw [register, if_neg hvne, if_pos hfound]
        · rw [register, if_neg hvne, if_pos hfound]
      · have hcond : normalize v = "" ∨ p2 = "" := Or.inr hp2
        exact ⟨fun hne => absurd hp2 hne, fun _ => by rw [register, if_pos hcond],
          by rw [register, if_pos hcond], by rw [register, if_pos hcond]⟩

/-- Witness for C4's amended statement: after registering `alice`, the
attempt `ALICE`/`pw2` is rejected as a duplicate with the table unchanged,
and the attempt `Alice`/`""` is rejected as invalid input. -/
theorem register_case_variant_rejected_witness :
    (register "salt" (register "salt" [] "alice" "pw" "t0").users "ALICE" "pw2" "t1").result =
      .error ⟨400, "Username already exists"⟩ ∧
    (register "salt" (register "salt" [] "alice" "pw" "t0").users "ALICE" "pw2" "t1").users =
      (register "salt" [] "alice" "pw" "t0").users ∧
    (register "salt" (register "salt" [] "alice" "pw" "t0").users "Alice" "" "t1").result =
      .error ⟨400, "Username and password are required"⟩ := by
  refine ⟨?_, ?_, ?_⟩
  · exact (register_case_variant_rejected "salt" [] "alice" "pw" "t0" "ALICE" "pw2" "t1"
      "alice" (by decide) (by decide)).1 (by decide)
  · exact (register_case_variant_rejected "salt" [] "alice" "pw" "t0" "ALICE" "pw2" "t1"
      "alice" (by decide) (by decide)).2.2.1
  · exact (register_case_variant_rejected "salt" [] "alice" "pw" "t0" "Alice" "" "t1"
      "alice" (by decide) (by decide)).2.1 rfl

/-- C5. Registration fails with `InvalidInput` (HTTP 400) whenever the
normalized username or the password is empty, leaving the user table
untouched and persisting nothing; and a successful registration implies
both fields were non-empty and the normalized username was not already
taken (in which case the new record is stored and persisted). -/
theorem register_input_validation (salt : String) (us : Users)
    (username password now : String) :
    ((normalize username = "" ∨ password = "") →
      (register salt us username password now).result =
        .error ⟨400, "Username and password are required"⟩ ∧
      (register salt us username password now).users = us ∧
      (register salt us username password now).persisted = false) ∧
    (∀ w, (register salt us username password now).result = .ok w →
      normalize username ≠ "" ∧ password ≠ "" ∧
      assocFind (normalize username) us = none) ∧
    (normalize username ≠ "" → password ≠ "" →
      assocFind (normalize username) us = none →
      (register salt us username password now).result = .ok (normalize username) ∧
      (register salt us username password now).persisted = true) := by
  refine ⟨?_, ?_, ?_⟩
  · intro h
    rw [register, if_pos h]
    exact ⟨rfl, rfl, rfl⟩
  · intro w hok
    by_cases h1 : normalize username = "" ∨ password = ""
    · rw [register, if_pos h1] at hok
      exact absurd hok (by simp)
    · by_cases h2 : (assocFind (normalize username) us).isSome
      · rw [register, if_neg h1, if_pos h2] at hok
        exact absurd hok (by simp)
      · push_neg at h1
        exact ⟨h1.1, h1.2, Option.not_isSome_iff_eq_none.mp h2⟩
  · intro hu hp hfind
    have h1 : ¬ (normalize username = "" ∨ password = "") := by tauto
    have h2 : ¬ (assocFind (normalize username) us).isSome := by
      rw [hfind]
      simp
    rw [register, if_neg h1, if_neg h2]
    exact ⟨rfl, rfl⟩

/-- Witness for C5: an empty password is rejected without touching the
table; registering `bob` in an empty table succeeds. -/
theorem register_input_validation_witness :
    ((register "salt" [] "bob" "" "t0").result =
        .error ⟨400, "Username and password are required"⟩ ∧
      (register "salt" [] "bob" "" "t0").users = [] ∧
      (register "salt" [] "bob" "" "t0").persisted = false) ∧
    (register "salt" [] "bob" "pw" "t0").result = .ok (normalize "bob") ∧
    (register "salt" [] "bob" "pw" "t0").persisted = true := by
  refine ⟨(register_input_validation "salt" [] "bob" "" "t0").1 (Or.inr rfl), ?_⟩
  exact (register_input_validation "salt" [] "bob" "pw" "t0").2.2
    (by decide) (by decide) (by decide)

/-- C6. A token issued for a non-empty username `U` verifies to subject `U`
at any time strictly before its encoded expiry `now + ttl minutes`; at or
after the expiry it fails with `TokenExpired`; any token whose signature
does not match the secret's signature of its payload fails with
`TokenInvalid`, as does any token whose payload is malformed (does not
decode to a claims object); the configured TTL defaults to 720 minutes.
The verification internals are modelled from the spec (PyJWT is external):
signature first, then payload decoding, then the expiry comparison. -/
theorem token_verify_spec (secret : String) (ttl now now2 : Nat) (u : String)
    (hu : u ≠ "") :
    (now2 < now + ttl * 60 →
      verify_token secret now2 (create_access_token secret ttl now u) = .ok u) ∧
    (now2 ≥ now + ttl * 60 →
      verify_token secret now2 (create_access_token secret ttl now u) =
        .error .expired) ∧
    (∀ t : Token, t.sig ≠ sign secret t.payload →
      verify_token secret now2 t = .error .invalid) ∧
    (∀ bytes s, verify_token secret now2 ⟨.garbage bytes, s⟩ = .error .invalid) ∧
    ACCESS_TOKEN_EXPIRE_MINUTES none = 720 := by
  refine ⟨?_, ?_, ?_, ?_, rfl⟩
  · intro h
    simp [verify_token, jwt_decode, create_access_token, hu, Nat.not_le.mpr h]
  · intro h
    simp [verify_token, jwt_decode, create_access_token, h]
  · intro t ht
    simp [verify_token, jwt_decode, ht]
  · intro bytes s
    by_cases hs : s = sign secret (Payload.garbage bytes)
    · simp [verify_token, jwt_decode, hs]
    · simp [verify_token, jwt_decode, hs]

/-- Witness for C6 with the default 720-minute TTL, issued at time 0:
verification succeeds at time 100, expires exactly at 43200 seconds, and
a forged signature or a garbage payload is invalid. -/
theorem token_verify_spec_witness :
    verify_token "sec" 100 (create_access_token "sec" 720 0 "bob") = .ok "bob" ∧
    verify_token "sec" 43200 (create_access_token "sec" 720 0 "bob") =
      .error .expired ∧
    verify_token "sec" 0 ⟨.claims (some "bob") 999, "bad"⟩ = .error .invalid ∧
    verify_token "sec" 0 ⟨.garbage "junk", "x"⟩ = .error .invalid := by
  refine ⟨(token_verify_spec "sec" 720 0 100 "bob" (by decide)).1 (by norm_num),
    (token_verify_spec "sec" 720 0 43200 "bob" (by decide)).2.1 (by norm_num),
    (token_verify_spec "sec" 720 0 0 "bob" (by decide)).2.2.1
      ⟨.claims (some "bob") 999, "bad"⟩ (by decide),
    (token_verify_spec "sec" 720 0 0 "bob" (by decide)).2.2.2.1 "junk" "x"⟩

/-- C7. `deleteSession` fails with `SessionNotFound` (HTTP 404) if and only
if the session is absent from the user's store; on success the session is
removed and the store is persisted, and a subsequent history read of that
session id returns the empty sequence rather than an error; a failed
delete leaves the store untouched. -/
theorem clear_session_spec (u sid : String) (ch : ChatHistory) :
    ((clear_session u sid ch).result = .error ⟨404, "Session not found"⟩ ↔
      assocFind sid (get_user_sessions u ch) = none) ∧
    (∀ msgs : List Message, assocFind sid (get_user_sessions u ch) = some msgs →
      (clear_session u sid ch).result =
        .ok ("Session " ++ sid ++ " cleared successfully") ∧
      (clear_session u sid ch).persisted = true ∧
      assocFind sid (get_user_sessions u (clear_session u sid ch).store) = none ∧
      get_chat_history u sid (clear_session u sid ch).store = []) ∧
    (assocFind sid (get_user_sessions u ch) = none →
      (clear_session u sid ch).store = ch ∧
      (clear_session u sid ch).persisted = false) := by
  by_cases h : (assocFind sid (get_user_sessions u ch)).isSome
  · have hres : (clear_session u sid ch).result =
        .ok ("Session " ++ sid ++ " cleared successfully") := by
      rw [clear_session, if_pos h]
    have hstore : (clear_session u sid ch).store =
        assocSet u (assocErase sid (get_user_sessions u ch)) ch := by
      rw [clear_session, if_pos h]
    have hpers : (clear_session u sid ch).persisted = true := by
      rw [clear_session, if_pos h]
    have hsess : get_user_sessions u (clear_session u sid ch).store =
        assocErase sid (get_user_sessions u ch) := by
      rw [hstore]
      unfold get_user_sessions
      rw [assocFind_assocSet_self]
      rfl
    refine ⟨?_, ?_, ?_⟩
    · rw [hres]
      constructor
      · intro hcontra
        exact absurd hcontra (by simp)
      · intro hnone
        rw [hnone] at h
        exact absurd h (by simp)
    · intro msgs _
      refine ⟨hres, hpers, ?_, ?_⟩
      · rw [hsess]
        exact assocFind_assocErase_self sid _
      · unfold get_chat_history
        rw [hsess, assocFind_assocErase_self]
        rfl
    · intro hnone
      rw [hnone] at h
      exact absurd h (by simp)
  · have hnone : assocFind sid (get_user_sessions u ch) = none :=
      Option.not_isSome_iff_eq_none.mp h
    have hres : (clear_session u sid ch).result =
        .error ⟨404, "Session not found"⟩ := by
      rw [clear_session, if_neg h]
    refine ⟨⟨fun _ => hnone, fun _ => hres⟩, ?_, fun _ => ?_⟩
    · intro msgs hmsgs
      rw [hmsgs] at hnone
      exact absurd hnone (by simp)
    · constructor
      · rw [clear_session, if_neg h]
      · rw [clear_session, if_neg h]


/-- Witness for C7 at a concrete store: deleting the present session `s1`
succeeds, removes it, persists, and leaves its history empty; deleting the
absent `s2` yields the 404 and leaves the store untouched. -/
theorem clear_session_spec_witness :
    ((clear_session "u" "s1" [("u", [("s1", [⟨"user", "a", "t"⟩])])]).result =
        .ok "Session s1 cleared successfully" ∧
      (clear_session "u" "s1" [("u", [("s1", [⟨"user", "a", "t"⟩])])]).persisted = true ∧
      get_chat_history "u" "s1"
        (clear_session "u" "s1" [("u", [("s1", [⟨"user", "a", "t"⟩])])]).store = []) ∧
    ((clear_session "u" "s2" [("u", [("s1", [⟨"user", "a", "t"⟩])])]).result =
        .error ⟨404, "Session not found"⟩ ∧
      (clear_session "u" "s2" [("u", [("s1", [⟨"user", "a", "t"⟩])])]).store =
        [("u", [("s1", [⟨"user", "a", "t"⟩])])]) := by
  constructor
  · have h := (clear_session_spec "u" "s1" [("u", [("s1", [⟨"user", "a", "t"⟩])])]).2.1
      [⟨"user", "a", "t"⟩] rfl
    exact ⟨h.1, h.2.1, h.2.2.2⟩
  · constructor
    · exact (clear_session_spec "u" "s2" [("u", [("s1", [⟨"user", "a", "t"⟩])])]).1.mpr rfl
    · exact ((clear_session_spec "u" "s2" [("u", [("s1", [⟨"user", "a", "t"⟩])])]).2.2 rfl).1

/-! ## Isolation lemmas -/

theorem get_user_sessions_append_message_ne (a b : String) (hne : a ≠ b)
    (sid : String) (m : Message) (ch : ChatHistory) :
    get_user_sessions b (append_message a sid m ch) = get_user_sessions b ch := by
  unfold append_message setSession get_user_sessions
  rw [assocFind_assocSet_ne a b hne]

theorem get_user_sessions_apply_appends_ne (a b : String) (hne : a ≠ b)
    (ops : List (String × Message)) :
    ∀ ch : ChatHistory,
      get_user_sessions b (apply_appends a ops ch) = get_user_sessions b ch := by
  induction ops with
  | nil => intro ch; rfl
  | cons op rest ih =>
    intro ch
    show get_user_sessions b
        (apply_appends a rest (append_message a op.1 op.2 ch)) =
      get_user_sessions b ch
    rw [ih (append_message a op.1 op.2 ch),
      get_user_sessions_append_message_ne a b hne]

/-- C8. For distinct-after-normalization users `A` and `B`, any sequence of
message appends performed under `A`'s identity leaves every `listSessions`
result and every history read performed under `B`'s identity exactly as it
would have been without `A`'s appends. -/
theorem session_isolation (A B : String) (hAB : normalize A ≠ normalize B)
    (ops : List (String × Message)) (ch : ChatHistory) :
    list_sessions (normalize B) (apply_appends (normalize A) ops ch) =
      list_sessions (normalize B) ch ∧
    ∀ sid, get_chat_history (normalize B) sid
        (apply_appends (normalize A) ops ch) =
      get_chat_history (normalize B) sid ch := by
  have h := get_user_sessions_apply_appends_ne (normalize A) (normalize B) hAB ops ch
  exact ⟨by rw [list_sessions, h, list_sessions],
    fun sid => by rw [get_chat_history, h, get_chat_history]⟩

/-- Witness for C8: one append under `alice` leaves `bob`'s (empty) session
listing and history reads unchanged. -/
theorem session_isolation_witness :
    list_sessions (normalize "bob")
        (apply_appends (normalize "Alice") [("s1", ⟨"user", "x", "t"⟩)] []) =
      list_sessions (normalize "bob") [] ∧
    get_chat_history (normalize "bob") "s1"
        (apply_appends (normalize "Alice") [("s1", ⟨"user", "x", "t"⟩)] []) =
      get_chat_history (normalize "bob") "s1" [] := by
  have h := session_isolation "Alice" "bob" (by decide) [("s1", ⟨"user", "x", "t"⟩)] []
  exact ⟨h.1, h.2 "s1"⟩

/-- C9. The auth gate matches the `bearer` scheme of the `Authorization`
header case-insensitively — any header whose lowercasing starts with
`"bearer "` reaches token decoding — and a request whose header is missing
or does not start with the (case-insensitive) scheme plus a space is
rejected with HTTP 401 before any token decoding is attempted, for every
possible decoding function. -/
theorem auth_gate_bearer_scheme
    (decodeTok : String → Except TokenError (Option String))
    (users : Users) (authorization : Option String) :
    ((authorization = none ∨
        ∃ a, authorization = some a ∧ bearerScheme a = false) →
      (get_current_username decodeTok users authorization).result =
        .error ⟨401, "Missing or invalid Authorization header"⟩ ∧
      (get_current_username decodeTok users authorization).decodeAttempted = false) ∧
    (∀ a, authorization = some a → bearerScheme a = true →
      (get_current_username decodeTok users authorization).decodeAttempted = true) := by
  constructor
  · rintro (rfl | ⟨a, rfl, hs⟩)
    · exact ⟨rfl, rfl⟩
    · rw [get_current_username, if_neg (by rw [hs]; exact Bool.false_ne_true)]
      exact ⟨rfl, rfl⟩
  · rintro a rfl hs
    rw [get_current_username, if_pos hs]
    cases hdt : decodeTok (afterFirstSpace a) with
    | error e => cases e <;> simp [hdt]
    | ok s =>
      cases s with
      | none => simp [hdt]
      | some v =>
        by_cases hv : v = "" <;>
          by_cases hfind : (assocFind v users).isSome <;>
            simp [hdt, hv, hfind]

/-- Witness for C9: a `Basic` header and a missing header are rejected with
the 401 before decoding; an upper-case `BEARER` header reaches decoding. -/
theorem auth_gate_bearer_scheme_witness :
    ((get_current_username (fun _ => .error .invalid) [] (some "Basic abc")).result =
        .error ⟨401, "Missing or invalid Authorization header"⟩ ∧
      (get_current_username (fun _ => .error .invalid) []
          (some "Basic abc")).decodeAttempted = false) ∧
    (get_current_username (fun _ => .error .invalid) []
        (some "BEARER tok")).decodeAttempted = true ∧
    (get_current_username (fun _ => .error .invalid) [] none).result =
      .error ⟨401, "Missing or invalid Authorization header"⟩ := by
  refine ⟨(auth_gate_bearer_scheme (fun _ => .error .invalid) []
      (some "Basic abc")).1 (Or.inr ⟨"Basic abc", rfl, by decide⟩),
    (auth_gate_bearer_scheme (fun _ => .error .invalid) []
      (some "BEARER tok")).2 "BEARER tok" rfl (by decide),
    ((auth_gate_bearer_scheme (fun _ => .error .invalid) [] none).1 (Or.inl rfl)).1⟩

end ChatBot
